import Mathlib

/-!
Verification of the credential-lifecycle and tool-orchestration core of the
digital-twin backend (`backend/app`).  The Python sources are shallowly
embedded: byte strings become `List Nat` with entries `< 256`, timestamps
become `Int` (seconds), fallible calls return `Option`, and external
collaborators (the AEAD primitive, the provider refresh endpoint, the service
clients, the inference endpoint) are explicit parameters or oracle scripts.
-/

namespace DigitalTwin

/-! Part 1: the secret cipher (`backend/app/core/security.py`)

`encrypt_token` / `decrypt_token` wrap the library AEAD `AESGCM` with the
blob format `nonce (12 bytes) ++ ciphertext ++ tag`.  The base64 transport
encoding is a bijection supplied by the standard library and is omitted:
blobs stay at the byte level. -/

/-- Nonce size in bytes, from `NONCE_SIZE = 12` in `security.py`. -/
def NONCE_SIZE : Nat := 12

/-- Modelled from the spec: the AES-256-GCM AEAD primitive is the external
`cryptography` library, not repository code.  Per section 4.1 it is an
authenticated symmetric cipher: encryption under `(key, nonce)` is invertible,
and decryption rejects any blob that is not an exact encryption under the same
key and nonce.  The model derives a one-byte keystream from the key and nonce,
shifts every plaintext byte by it, and appends a one-byte authentication tag
bound to the ciphertext, key and nonce. -/
def keyStream (key nonce : List Nat) : Nat :=
  (key.foldl (fun a b => a * 131 + b) 7 +
   nonce.foldl (fun a b => a * 257 + b) 11) % 256

/-- Authentication tag of a ciphertext under `(key, nonce)` (model of the
16-byte GCM tag). -/
def gcmTag (key nonce ct : List Nat) : Nat :=
  (ct.sum + keyStream key nonce) % 256

/-- Model of `AESGCM(key).encrypt(nonce, pt, None)`: ciphertext followed by
the authentication tag. -/
def aesgcmEncrypt (key nonce pt : List Nat) : List Nat :=
  pt.map (fun b => (b + keyStream key nonce) % 256) ++
    [gcmTag key nonce (pt.map (fun b => (b + keyStream key nonce) % 256))]

/-- Model of `AESGCM(key).decrypt(nonce, c, None)`: recover the candidate
plaintext and accept only if re-encryption reproduces the blob exactly
(`none` models the `InvalidTag` exception). -/
def aesgcmDecrypt (key nonce c : List Nat) : Option (List Nat) :=
  if aesgcmEncrypt key nonce
      (c.dropLast.map (fun b => (b + (256 - keyStream key nonce)) % 256)) = c then
    some (c.dropLast.map (fun b => (b + (256 - keyStream key nonce)) % 256))
  else none

/-- Model of `encrypt_token` (security.py line 38): draw a nonce, encrypt, and store
`nonce ++ ciphertext` as one blob.  The nonce is a parameter here because the
source draws it from `os.urandom`. -/
def encrypt_token (key nonce pt : List Nat) : List Nat :=
  nonce ++ aesgcmEncrypt key nonce pt

/-- Model of `decrypt_token` (security.py line 62): split the blob at `NONCE_SIZE` and
decrypt; `none` models the propagated `InvalidTag` exception. -/
def decrypt_token (key blob : List Nat) : Option (List Nat) :=
  let nonce := blob.take NONCE_SIZE
  let ct := blob.drop NONCE_SIZE
  aesgcmDecrypt key nonce ct

lemma keyStream_lt (key nonce : List Nat) : keyStream key nonce < 256 :=
  Nat.mod_lt _ (by norm_num)

lemma byte_unshift_shift (h b : Nat) (hb : b < 256) (hh : h < 256) :
    ((b + h) % 256 + (256 - h)) % 256 = b := by omega

lemma byte_shift_unshift (h b : Nat) (hb : b < 256) (hh : h < 256) :
    ((b + (256 - h)) % 256 + h) % 256 = b := by omega

/-- Applying the byte shift after the byte unshift (or vice versa) is the
identity on byte lists. -/
lemma map_unshift_shift (key nonce : List Nat) (l : List Nat)
    (hl : ∀ b ∈ l, b < 256) :
    (l.map (fun b => (b + keyStream key nonce) % 256)).map
      (fun b => (b + (256 - keyStream key nonce)) % 256) = l := by
  have hh := keyStream_lt key nonce
  rw [List.map_map]
  conv_rhs => rw [← List.map_id l]
  exact List.map_congr_left (fun b hb => byte_unshift_shift _ _ (hl b hb) hh)

lemma map_shift_unshift (key nonce : List Nat) (l : List Nat)
    (hl : ∀ b ∈ l, b < 256) :
    (l.map (fun b => (b + (256 - keyStream key nonce)) % 256)).map
      (fun b => (b + keyStream key nonce) % 256) = l := by
  have hh := keyStream_lt key nonce
  rw [List.map_map]
  conv_rhs => rw [← List.map_id l]
  exact List.map_congr_left (fun b hb => byte_shift_unshift _ _ (hl b hb) hh)

lemma aesgcmEncrypt_dropLast (key nonce pt : List Nat) :
    (aesgcmEncrypt key nonce pt).dropLast =
      pt.map (fun b => (b + keyStream key nonce) % 256) := by
  unfold aesgcmEncrypt
  exact List.dropLast_concat

/-- Round trip through the modelled AEAD. -/
lemma aesgcm_roundtrip (key nonce pt : List Nat) (hpt : ∀ b ∈ pt, b < 256) :
    aesgcmDecrypt key nonce (aesgcmEncrypt key nonce pt) = some pt := by
  unfold aesgcmDecrypt
  rw [aesgcmEncrypt_dropLast, map_unshift_shift key nonce pt hpt]
  simp

lemma shifted_bytes_lt (key nonce pt : List Nat) :
    ∀ b ∈ pt.map (fun b => (b + keyStream key nonce) % 256), b < 256 := by
  intro b hb
  rcases List.mem_map.1 hb with ⟨a, _, ha⟩
  omega

/-- Replacing one element changes the sum by the difference of the entries. -/
lemma sum_set_add (l : List Nat) (i v : Nat) (h : i < l.length) :
    (l.set i v).sum + l[i] = l.sum + v := by
  induction l generalizing i with
  | nil => simp at h
  | cons a t ih =>
    cases i with
    | zero => simp [List.set]; omega
    | succ n =>
      simp only [List.set, List.sum_cons, List.getElem_cons_succ]
      have := ih n (by simpa using h)
      omega

/-- Decryption of a blob whose ciphertext-or-tag region was altered at one
position fails in the modelled AEAD. -/
lemma aesgcmDecrypt_set_ne (key nonce pt : List Nat) (i v : Nat)
    (_hpt : ∀ b ∈ pt, b < 256)
    (hi : i < (aesgcmEncrypt key nonce pt).length) (hv : v < 256)
    (hne : v ≠ (aesgcmEncrypt key nonce pt)[i]) :
    aesgcmDecrypt key nonce ((aesgcmEncrypt key nonce pt).set i v) = none := by
  have hh := keyStream_lt key nonce
  set ct := pt.map (fun b => (b + keyStream key nonce) % 256) with hct
  have hctlt : ∀ b ∈ ct, b < 256 := shifted_bytes_lt key nonce pt
  have henc : aesgcmEncrypt key nonce pt = ct ++ [gcmTag key nonce ct] := rfl
  have hi2 : i < ct.length + 1 := by
    have hlen : (aesgcmEncrypt key nonce pt).length = ct.length + 1 := by
      rw [henc]; simp
    omega
  rw [henc]
  rcases Nat.lt_succ_iff_lt_or_eq.1 hi2 with hilt | hieq
  · -- alteration inside the ciphertext part
    have e1 : (aesgcmEncrypt key nonce pt)[i] = ct[i] :=
      List.getElem_append_left hilt
    have hne2 : v ≠ ct[i] := e1 ▸ hne
    rw [List.set_append_left _ _ hilt]
    have hset : ∀ b ∈ ct.set i v, b < 256 := by
      intro b hb
      rcases List.mem_or_eq_of_mem_set hb with h | h
      · exact hctlt b h
      · omega
    unfold aesgcmDecrypt
    rw [if_neg]
    intro hc
    rw [List.dropLast_concat] at hc
    unfold aesgcmEncrypt at hc
    rw [map_shift_unshift key nonce _ hset] at hc
    rcases (List.append_right_inj _).1 hc with hc2
    have htag : gcmTag key nonce (ct.set i v) = gcmTag key nonce ct := by
      simpa using hc2
    unfold gcmTag at htag
    have hsum := sum_set_add ct i v hilt
    have hcti : ct[i] < 256 := hctlt _ (List.getElem_mem hilt)
    omega
  · -- alteration of the tag byte
    subst hieq
    have e2 : (aesgcmEncrypt key nonce pt)[ct.length] = gcmTag key nonce ct :=
      List.getElem_concat_length ct _ ct.length rfl
        (by rw [henc] at hi; exact hi)
    have hne2 : v ≠ gcmTag key nonce ct := e2 ▸ hne
    rw [show (ct ++ [gcmTag key nonce ct]).set ct.length v = ct ++ [v] by
      simp [List.set_append_right]]
    unfold aesgcmDecrypt
    rw [if_neg]
    intro hc
    rw [List.dropLast_concat] at hc
    unfold aesgcmEncrypt at hc
    rw [map_shift_unshift key nonce _ hctlt] at hc
    rcases (List.append_right_inj _).1 hc with hc2
    exact hne2 (by simpa using hc2.symm)

/-- Decryption with a key whose derived keystream differs fails in the
modelled AEAD. -/
lemma aesgcmDecrypt_wrong_key (key1 key2 nonce pt : List Nat)
    (_hpt : ∀ b ∈ pt, b < 256)
    (hks : keyStream key1 nonce ≠ keyStream key2 nonce) :
    aesgcmDecrypt key2 nonce (aesgcmEncrypt key1 nonce pt) = none := by
  have hh1 := keyStream_lt key1 nonce
  have hh2 := keyStream_lt key2 nonce
  set ct := pt.map (fun b => (b + keyStream key1 nonce) % 256) with hct
  have hctlt : ∀ b ∈ ct, b < 256 := shifted_bytes_lt key1 nonce pt
  have henc : aesgcmEncrypt key1 nonce pt = ct ++ [gcmTag key1 nonce ct] := rfl
  rw [henc]
  unfold aesgcmDecrypt
  rw [if_neg]
  intro hc
  rw [List.dropLast_concat] at hc
  unfold aesgcmEncrypt at hc
  rw [map_shift_unshift key2 nonce _ hctlt] at hc
  rcases (List.append_right_inj _).1 hc with hc2
  have : gcmTag key2 nonce ct = gcmTag key1 nonce ct := by simpa using hc2
  unfold gcmTag at this
  omega

/-- C5: for every key, every 12-byte nonce and every plaintext byte string,
`decrypt_token` inverts `encrypt_token`: unsealing a sealed secret returns the
original plaintext regardless of the nonce drawn by the seal call. -/
theorem c5_decrypt_encrypt_roundtrip (key nonce pt : List Nat)
    (hn : nonce.length = NONCE_SIZE) (hpt : ∀ b ∈ pt, b < 256) :
    decrypt_token key (encrypt_token key nonce pt) = some pt := by
  unfold decrypt_token encrypt_token
  rw [List.take_left' hn, List.drop_left' hn]
  exact aesgcm_roundtrip key nonce pt hpt

/-- Witness for C5 at a concrete key, nonce and plaintext. -/
theorem c5_witness :
    decrypt_token [1, 2, 3] (encrypt_token [1, 2, 3] (List.replicate 12 7) [72, 105]) =
      some [72, 105] :=
  c5_decrypt_encrypt_roundtrip [1, 2, 3] (List.replicate 12 7) [72, 105]
    (by decide) (by decide)

/-- C6: `decrypt_token` fails (raises the authentication error, modelled as
`none`) on a sealed blob whose ciphertext-or-tag region was altered at any
single byte position, and on a blob sealed under a different key (any key
whose derived keystream differs). -/
theorem c6_decrypt_rejects_tampering :
    (∀ key nonce pt i v, nonce.length = NONCE_SIZE → (∀ b ∈ pt, b < 256) →
      ∀ hi : i < (aesgcmEncrypt key nonce pt).length, v < 256 →
      v ≠ (aesgcmEncrypt key nonce pt)[i] →
      decrypt_token key (nonce ++ (aesgcmEncrypt key nonce pt).set i v) = none) ∧
    (∀ key1 key2 nonce pt, nonce.length = NONCE_SIZE → (∀ b ∈ pt, b < 256) →
      keyStream key1 nonce ≠ keyStream key2 nonce →
      decrypt_token key2 (encrypt_token key1 nonce pt) = none) := by
  constructor
  · intro key nonce pt i v hn hpt hi hv hne
    unfold decrypt_token
    rw [List.take_left' hn, List.drop_left' hn]
    exact aesgcmDecrypt_set_ne key nonce pt i v hpt hi hv hne
  · intro key1 key2 nonce pt hn hpt hks
    unfold decrypt_token encrypt_token
    rw [List.take_left' hn, List.drop_left' hn]
    exact aesgcmDecrypt_wrong_key key1 key2 nonce pt hpt hks

/-- Witness for C6: a concrete one-byte alteration is rejected, and a concrete
blob sealed under key `[1, 2, 3]` is rejected under key `[9]`. -/
theorem c6_witness :
    decrypt_token [1, 2, 3]
        (List.replicate 12 7 ++
          (aesgcmEncrypt [1, 2, 3] (List.replicate 12 7) [72, 105]).set 0 255) = none ∧
    decrypt_token [9] (encrypt_token [1, 2, 3] (List.replicate 12 7) [72, 105]) = none :=
  ⟨c6_decrypt_rejects_tampering.1 [1, 2, 3] (List.replicate 12 7) [72, 105] 0 255
      (by decide) (by decide) (by decide) (by decide) (by decide),
   c6_decrypt_rejects_tampering.2 [1, 2, 3] [9] (List.replicate 12 7) [72, 105]
      (by decide) (by decide) (by decide)⟩

/-! Part 2: the credential vault (`backend/app/services/google_auth.py`)

`get_valid_google_token` reads the per-(user, "google") `OAuthConnection`
record, returns the unsealed access token if it is still fresh, and otherwise
attempts a refresh against the provider token endpoint.  The database lookup
is modelled by passing the looked-up record (`Option OAuthConnection`), the
clock by an explicit `now : Int` (seconds), and the provider HTTP exchange by
an explicit `RefreshOutcome`.  Nonces drawn while resealing are parameters.
`db.commit` persists the mutated record; the record returned in the result is
the stored state after the call. -/

/-- The persisted credential record, from `OAuthConnection` in
`app/models/user.py` (identity and bookkeeping columns kept so frame effects
are expressible; `created_at` and the DB-managed `updated_at` are omitted). -/
structure OAuthConnection where
  provider : String
  provider_user_id : String
  access_token : List Nat
  refresh_token : Option (List Nat)
  token_expiry : Option Int
  scopes : Option String
deriving DecidableEq, Repr

/-- Parsed JSON body of the provider token response: `access_token` is
required on the 200 path, `expires_in` defaults to 3600, `refresh_token` is
optional (Google sometimes rotates it). -/
structure TokenResponse where
  access_token : List Nat
  expires_in : Option Int
  refresh_token : Option (List Nat)
deriving DecidableEq, Repr

/-- Outcome of the `httpx` POST to `settings.google_token_uri`: either the
request raised (network error, caught by the `except` block) or an HTTP
response with a status code and body arrived. -/
inductive RefreshOutcome where
  | netError
  | httpResponse (status : Nat) (body : TokenResponse)
deriving DecidableEq, Repr

/-- Result of one `get_valid_google_token` call: the plaintext token returned
to the caller (`none` models the Python `None`, i.e. NotConnected), the
stored record after the call, and whether the provider refresh endpoint was
contacted. -/
structure TokenFetchResult where
  token : Option (List Nat)
  conn : Option OAuthConnection
  refreshCalled : Bool
deriving DecidableEq, Repr

/-- Refresh buffer: `timedelta(minutes=5)` in seconds. -/
def REFRESH_BUFFER : Int := 300

/-- The refresh path of `get_valid_google_token` (google_auth.py lines
49-88): no refresh token means give up; a failed decrypt raises into the
`except` block; a network error or non-200 status returns `None` without
touching the record; a 200 response reseals the new access token, recomputes
the expiry from `expires_in` (default 3600) and replaces the refresh token
only when the response carries one. -/
def refreshGoogleToken (key : List Nat) (now : Int) (conn : OAuthConnection)
    (outcome : RefreshOutcome) (nonceA nonceR : List Nat) : TokenFetchResult :=
  match conn.refresh_token with
  | none => ⟨none, some conn, false⟩
  | some rblob =>
    match decrypt_token key rblob with
    | none => ⟨none, some conn, false⟩
    | some _ =>
      match outcome with
      | .netError => ⟨none, some conn, true⟩
      | .httpResponse status body =>
        if status ≠ 200 then ⟨none, some conn, true⟩
        else
          ⟨some body.access_token,
           some { conn with
                  access_token := encrypt_token key nonceA body.access_token,
                  token_expiry := some (now + body.expires_in.getD 3600),
                  refresh_token :=
                    match body.refresh_token with
                    | some r => some (encrypt_token key nonceR r)
                    | none => conn.refresh_token },
           true⟩

/-- Model of `get_valid_google_token` (google_auth.py lines 16-88).  The freshness
test is the Python `if oauth_conn.token_expiry and oauth_conn.token_expiry >
now + buffer`: the expiry must be present AND beyond the buffer to skip the
refresh.  On the fresh path the stored access token is unsealed and returned
(a decrypt failure raises into the `except` block, modelled by the `Option`
result). -/
def get_valid_google_token (key : List Nat) (now : Int)
    (lookup : Option OAuthConnection) (outcome : RefreshOutcome)
    (nonceA nonceR : List Nat) : TokenFetchResult :=
  match lookup with
  | none => ⟨none, none, false⟩
  | some conn =>
    match conn.token_expiry with
    | some expiry =>
      if now + REFRESH_BUFFER < expiry then
        ⟨decrypt_token key conn.access_token, some conn, false⟩
      else refreshGoogleToken key now conn outcome nonceA nonceR
    | none => refreshGoogleToken key now conn outcome nonceA nonceR

/-- A record whose expiry is absent, with a valid sealed refresh token, used
to exhibit the behaviour of `get_valid_google_token` on `token_expiry =
None`. -/
def connNoExpiry : OAuthConnection :=
  { provider := "google", provider_user_id := "g-1",
    access_token := encrypt_token [1] (List.replicate 12 0) [10, 11],
    refresh_token := some (encrypt_token [1] (List.replicate 12 1) [20, 21]),
    token_expiry := none, scopes := none }

/-- C2 counterexample: the claim says an absent `expires_at` takes the direct
path (unseal and return, no refresh call).  The code tests
`oauth_conn.token_expiry and ...`, so an absent expiry falls through to the
refresh path: the provider refresh client IS invoked, and the returned token
is the refreshed one, not the unsealed stored one. -/
theorem c2_counterexample :
    (get_valid_google_token [1] 0 (some connNoExpiry)
        (.httpResponse 200 ⟨[30, 31], some 3600, none⟩)
        (List.replicate 12 2) (List.replicate 12 3)).refreshCalled = true ∧
    (get_valid_google_token [1] 0 (some connNoExpiry)
        (.httpResponse 200 ⟨[30, 31], some 3600, none⟩)
        (List.replicate 12 2) (List.replicate 12 3)).token = some [30, 31] ∧
    decrypt_token [1] connNoExpiry.access_token = some [10, 11] := by
  refine ⟨rfl, rfl, ?_⟩
  decide

/-- C2 (amended): if `expires_at` is present and more than the 5-minute
buffer in the future, `get_valid_google_token` unseals and returns the stored
access secret directly, does not invoke the provider refresh client, and does
not mutate the record.  (An absent `expires_at` instead takes the refresh
path.) -/
theorem c2_fresh_token_direct (key : List Nat) (now : Int)
    (conn : OAuthConnection) (outcome : RefreshOutcome)
    (nonceA nonceR : List Nat) (expiry : Int)
    (hexp : conn.token_expiry = some expiry)
    (hfresh : now + REFRESH_BUFFER < expiry) :
    get_valid_google_token key now (some conn) outcome nonceA nonceR =
      ⟨decrypt_token key conn.access_token, some conn, false⟩ := by
  simp only [get_valid_google_token]
  rw [hexp]
  simp [hfresh]

/-- Witness for the amended C2 at a concrete record whose expiry is 600
seconds (10 minutes) past the buffer origin. -/
theorem c2_witness :
    get_valid_google_token [1] 0
        (some { connNoExpiry with token_expiry := some 600 })
        (.httpResponse 200 ⟨[30, 31], some 3600, none⟩)
        (List.replicate 12 2) (List.replicate 12 3) =
      ⟨decrypt_token [1] connNoExpiry.access_token,
       some { connNoExpiry with token_expiry := some 600 }, false⟩ :=
  c2_fresh_token_direct [1] 0 { connNoExpiry with token_expiry := some 600 }
    (.httpResponse 200 ⟨[30, 31], some 3600, none⟩)
    (List.replicate 12 2) (List.replicate 12 3) 600 rfl (by decide)

/-- When the stored expiry is absent or not beyond the buffer, the call
takes the refresh path. -/
lemma get_valid_google_token_stale (key : List Nat) (now : Int)
    (conn : OAuthConnection) (outcome : RefreshOutcome)
    (nonceA nonceR : List Nat)
    (hstale : conn.token_expiry = none ∨
      ∃ e, conn.token_expiry = some e ∧ e ≤ now + REFRESH_BUFFER) :
    get_valid_google_token key now (some conn) outcome nonceA nonceR =
      refreshGoogleToken key now conn outcome nonceA nonceR := by
  simp only [get_valid_google_token]
  rcases hstale with h | ⟨e, he, hle⟩
  · rw [h]
  · rw [he]
    have hne : ¬ (now + REFRESH_BUFFER < e) := by omega
    simp [hne]

/-- C3: whenever a refresh is needed (expiry absent or not beyond the
buffer), if the record has no refresh secret, or its refresh blob fails to
unseal, or the provider exchange fails (network error or non-200 status),
then the call returns `none` (NotConnected) and the stored record is
unchanged.  Exceptions are absorbed into the `none` result (the model is a
total function), so no provider or network error crosses the vault
boundary. -/
theorem c3_refresh_failure_not_connected (key : List Nat) (now : Int)
    (conn : OAuthConnection) (outcome : RefreshOutcome)
    (nonceA nonceR : List Nat)
    (hstale : conn.token_expiry = none ∨
      ∃ e, conn.token_expiry = some e ∧ e ≤ now + REFRESH_BUFFER)
    (hfail : conn.refresh_token = none ∨
      (∃ rb, conn.refresh_token = some rb ∧ decrypt_token key rb = none) ∨
      outcome = .netError ∨
      (∃ s body, outcome = .httpResponse s body ∧ s ≠ 200)) :
    (get_valid_google_token key now (some conn) outcome nonceA nonceR).token
        = none ∧
    (get_valid_google_token key now (some conn) outcome nonceA nonceR).conn
        = some conn := by
  rw [get_valid_google_token_stale key now conn outcome nonceA nonceR hstale]
  rcases hfail with h | ⟨rb, hrb, hdec⟩ | h | ⟨s, body, ho, hs⟩
  · simp [refreshGoogleToken, h]
  · simp [refreshGoogleToken, hrb, hdec]
  · subst h
    cases hrt : conn.refresh_token with
    | none => simp [refreshGoogleToken, hrt]
    | some rb =>
      cases hdec : decrypt_token key rb with
      | none => simp [refreshGoogleToken, hrt, hdec]
      | some rt => simp [refreshGoogleToken, hrt, hdec]
  · subst ho
    cases hrt : conn.refresh_token with
    | none => simp [refreshGoogleToken, hrt]
    | some rb =>
      cases hdec : decrypt_token key rb with
      | none => simp [refreshGoogleToken, hrt, hdec]
      | some rt => simp [refreshGoogleToken, hrt, hdec, hs]

/-- Witness for C3: expired record with no refresh secret is NotConnected
and untouched. -/
theorem c3_witness :
    (get_valid_google_token [1] 1000
        (some { connNoExpiry with token_expiry := some 900, refresh_token := none })
        .netError (List.replicate 12 2) (List.replicate 12 3)).token = none ∧
    (get_valid_google_token [1] 1000
        (some { connNoExpiry with token_expiry := some 900, refresh_token := none })
        .netError (List.replicate 12 2) (List.replicate 12 3)).conn =
      some { connNoExpiry with token_expiry := some 900, refresh_token := none } :=
  c3_refresh_failure_not_connected [1] 1000
    { connNoExpiry with token_expiry := some 900, refresh_token := none }
    .netError (List.replicate 12 2) (List.replicate 12 3)
    (Or.inr ⟨900, rfl, by decide⟩) (Or.inl rfl)

/-- A stale record (expiry 299, just inside the buffer at `now = 0`) with a
valid sealed refresh token, used for the C8 counterexample. -/
def connStale : OAuthConnection :=
  { connNoExpiry with token_expiry := some 299 }

/-- The record stored after refreshing `connStale` when the provider answers
with lifetime 0. -/
def connStaleAfter : OAuthConnection :=
  { connStale with
    access_token := encrypt_token [1] (List.replicate 12 2) [30, 31],
    token_expiry := some 0 }

/-- C8 counterexample: the claim says that on a successful refresh the new
`expires_at` is strictly later than before.  If the provider returns
`expires_in = 0`, the code stores `now + 0 = 0`, which is EARLIER than the
previous expiry 299: the strict-increase part of the claim fails. -/
theorem c8_counterexample :
    (get_valid_google_token [1] 0 (some connStale)
        (.httpResponse 200 ⟨[30, 31], some 0, none⟩)
        (List.replicate 12 2) (List.replicate 12 3)).conn = some connStaleAfter ∧
    connStaleAfter.token_expiry = some 0 ∧
    connStale.token_expiry = some 299 ∧ ¬ ((299 : Int) < 0) := by
  refine ⟨?_, rfl, rfl, by decide⟩
  rfl

/-- C8 (amended): on a successful refresh (stale record, refresh blob
unseals, provider answers 200), the stored access secret is replaced by the
newly sealed one, `expires_at` becomes `now + lifetime` (lifetime defaulting
to 3600) — strictly later than the previous expiry whenever the returned
lifetime exceeds the 5-minute buffer — the refresh secret is replaced exactly
when the response contains a new one, and no other record field changes. -/
theorem c8_successful_refresh (key : List Nat) (now : Int)
    (conn : OAuthConnection) (body : TokenResponse)
    (nonceA nonceR : List Nat) (rb : List Nat) (rt : List Nat)
    (hstale : conn.token_expiry = none ∨
      ∃ e, conn.token_expiry = some e ∧ e ≤ now + REFRESH_BUFFER)
    (hrb : conn.refresh_token = some rb)
    (hdec : decrypt_token key rb = some rt) :
    get_valid_google_token key now (some conn) (.httpResponse 200 body)
        nonceA nonceR =
      ⟨some body.access_token,
       some { conn with
              access_token := encrypt_token key nonceA body.access_token,
              token_expiry := some (now + body.expires_in.getD 3600),
              refresh_token :=
                match body.refresh_token with
                | some r => some (encrypt_token key nonceR r)
                | none => conn.refresh_token },
       true⟩ ∧
    (∀ e, conn.token_expiry = some e → REFRESH_BUFFER < body.expires_in.getD 3600 →
      e < now + body.expires_in.getD 3600) := by
  constructor
  · rw [get_valid_google_token_stale key now conn (.httpResponse 200 body)
      nonceA nonceR hstale]
    simp [refreshGoogleToken, hrb, hdec]
  · intro e he hlife
    rcases hstale with h | ⟨e2, he2, hle⟩
    · rw [h] at he; cases he
    · rw [he2] at he
      cases he
      unfold REFRESH_BUFFER at hlife hle
      omega

/-- Witness for the amended C8: refreshing `connStale` with a one-hour
lifetime moves the expiry from 299 to 3600 and reseals both secrets. -/
theorem c8_witness :
    get_valid_google_token [1] 0 (some connStale)
        (.httpResponse 200 ⟨[30, 31], some 3600, some [40, 41]⟩)
        (List.replicate 12 2) (List.replicate 12 3) =
      ⟨some [30, 31],
       some { connStale with
              access_token := encrypt_token [1] (List.replicate 12 2) [30, 31],
              token_expiry := some 3600,
              refresh_token := some (encrypt_token [1] (List.replicate 12 3) [40, 41]) },
       true⟩ ∧
    (∀ e, connStale.token_expiry = some e → REFRESH_BUFFER < (3600 : Int) →
      e < 0 + 3600) := by
  have h := c8_successful_refresh [1] 0 connStale ⟨[30, 31], some 3600, some [40, 41]⟩
    (List.replicate 12 2) (List.replicate 12 3)
    (encrypt_token [1] (List.replicate 12 1) [20, 21]) [20, 21]
    (Or.inr ⟨299, rfl, by decide⟩) rfl (by decide)
  exact ⟨h.1, fun e he _ => by
    have := h.2 e he (by decide)
    simpa using this⟩

/-! Part 3: the tool registry and dispatcher (`backend/app/api/chat.py`)

The registry `TOOLS` is kept as names plus required-parameter lists (the
descriptions and full JSON schemas are advertisement text with no control
flow).  Tool arguments are a string-keyed mapping (the JSON serialization of
argument values is a bijective transport and is left at the string level).
The external service clients behind each tool are an oracle
`run : tool name → arguments → HandlerOutcome`. -/

/-- One entry of the `TOOLS` catalog: the function name and the `required`
list of its parameter schema. -/
structure ToolSchema where
  name : String
  required : List String
deriving DecidableEq, Repr

/-- Model of the `TOOLS` catalog (chat.py lines 62-413), in source order. -/
def TOOLS : List ToolSchema :=
  [⟨"get_calendar_events", []⟩,
   ⟨"get_emails", []⟩,
   ⟨"get_email_content", ["message_id"]⟩,
   ⟨"get_email_thread", ["thread_id"]⟩,
   ⟨"create_calendar_event", ["summary", "start_time", "end_time"]⟩,
   ⟨"update_calendar_event", ["event_id"]⟩,
   ⟨"share_calendar_event", ["event_id", "attendee_emails"]⟩,
   ⟨"delete_calendar_event", ["event_id"]⟩,
   ⟨"search_notion", []⟩,
   ⟨"get_notion_page", ["page_id"]⟩,
   ⟨"create_notion_page", ["title", "parent_page_id"]⟩,
   ⟨"update_notion_page", ["page_id"]⟩,
   ⟨"update_notion_block", ["block_id", "new_text"]⟩,
   ⟨"delete_notion_block", ["block_id"]⟩,
   ⟨"delete_notion_page", ["page_id"]⟩]

/-- The advertised tool names. -/
def TOOL_NAMES : List String := TOOLS.map ToolSchema.name

/-- Required parameters of a tool, looked up in the catalog. -/
def requiredOf (name : String) : List String :=
  ((TOOLS.find? (fun t => t.name == name)).map ToolSchema.required).getD []

/-- Outcome of awaiting one service-client call: a truthy result (already
rendered to its result string, e.g. `json.dumps(...)`), a falsy result
(`None` / empty list / `False`), or a raised exception with its message. -/
inductive HandlerOutcome where
  | value (s : String)
  | falsy
  | raised (msg : String)
deriving DecidableEq, Repr

/-- Lookup `arguments.get(k)`: first binding of `k` in the argument mapping. -/
def getArg (args : List (String × String)) (k : String) : Option String :=
  (args.find? (fun p => p.1 == k)).map (fun p => p.2)

/-- The catch-all of `execute_tool`: `f"Error executing {tool_name}: {e}"`. -/
def execErrStr (name msg : String) : String :=
  "Error executing " ++ name ++ ": " ++ msg

/-- Rendering `str(KeyError(k))`: the key in single quotes. -/
def keyErrStr (k : String) : String := "\x27" ++ k ++ "\x27"

/-- Left-to-right required-argument access: the first key missing from the
mapping raises `KeyError` (returned as `some key`); `none` means every
required access succeeded. -/
def checkRequired (args : List (String × String)) : List String → Option String
  | [] => none
  | k :: ks =>
    match getArg args k with
    | none => some k
    | some _ => checkRequired args ks

/-- Shared tail of every known-tool branch: await the service call; a raised
exception is caught at the dispatcher boundary and rendered with
`execErrStr`, a falsy result yields the branch's canned failure text, a
truthy result is rendered by the branch's success formatter. -/
def runTool (tool_name : String) (args : List (String × String))
    (run : String → List (String × String) → HandlerOutcome)
    (onFalsy : String) (onValue : String → String) : String :=
  match run tool_name args with
  | .raised m => execErrStr tool_name m
  | .falsy => onFalsy
  | .value s => onValue s

/-- Model of `execute_tool` (chat.py lines 524-719): the `if tool_name == ...` chain
over the fifteen registered tools, ending in the unknown-tool text; the whole
body is wrapped in `try/except` rendering any exception with `execErrStr`. -/
def execute_tool (tool_name : String) (arguments : List (String × String))
    (run : String → List (String × String) → HandlerOutcome) : String :=
  if tool_name = "get_calendar_events" then
    runTool tool_name arguments run
      (if (getArg arguments "query").getD "" ≠ "" then
        "No events found matching \x27" ++ (getArg arguments "query").getD "" ++
          "\x27. TRY AGAIN with a different query (shorter keyword or empty query to list all events)."
      else
        "No events found for this time period. TRY AGAIN with a wider date range or empty query.")
      (fun s => s)
  else if tool_name = "get_emails" then
    runTool tool_name arguments run
      (if (getArg arguments "query").getD "" ≠ "" then
        "No emails found matching \x27" ++ (getArg arguments "query").getD "" ++
          "\x27. TRY AGAIN with a different query (simpler keywords, different phrasing, or empty query to list recent emails)."
      else "No recent emails found, or Gmail is not connected.")
      (fun s => s)
  else if tool_name = "get_email_content" then
    match checkRequired arguments ["message_id"] with
    | some k => execErrStr tool_name (keyErrStr k)
    | none =>
      runTool tool_name arguments run
        "Failed to get email. Check the message ID or ensure Gmail is connected."
        (fun s => s)
  else if tool_name = "get_email_thread" then
    match checkRequired arguments ["thread_id"] with
    | some k => execErrStr tool_name (keyErrStr k)
    | none =>
      runTool tool_name arguments run
        "Failed to get email thread. Check the thread ID or ensure Gmail is connected."
        (fun s => s)
  else if tool_name = "create_calendar_event" then
    match checkRequired arguments ["summary", "start_time", "end_time"] with
    | some k => execErrStr tool_name (keyErrStr k)
    | none =>
      runTool tool_name arguments run
        "Failed to create event. Please check the details and try again."
        (fun s => "Event created successfully!\n" ++ s)
  else if tool_name = "update_calendar_event" then
    match checkRequired arguments ["event_id"] with
    | some k => execErrStr tool_name (keyErrStr k)
    | none =>
      runTool tool_name arguments run
        "Failed to update event. Please check the event ID and try again."
        (fun s => "Event updated successfully!\n" ++ s)
  else if tool_name = "share_calendar_event" then
    match checkRequired arguments ["event_id", "attendee_emails"] with
    | some k => execErrStr tool_name (keyErrStr k)
    | none =>
      runTool tool_name arguments run
        "Failed to share event. Please check the event ID and try again."
        (fun s => "Event shared successfully! Invitations sent.\n" ++ s)
  else if tool_name = "delete_calendar_event" then
    match checkRequired arguments ["event_id"] with
    | some k => execErrStr tool_name (keyErrStr k)
    | none =>
      runTool tool_name arguments run
        "Failed to delete event. Please check the event ID and try again."
        (fun _ => "Event deleted successfully!")
  else if tool_name = "search_notion" then
    runTool tool_name arguments run
      (if (getArg arguments "query").getD "" ≠ "" then
        "No Notion pages found matching \x27" ++ (getArg arguments "query").getD "" ++
          "\x27. TRY AGAIN with different keywords or an empty query to list recent pages."
      else "No Notion pages found, or Notion is not connected.")
      (fun s => s)
  else if tool_name = "get_notion_page" then
    match checkRequired arguments ["page_id"] with
    | some k => execErrStr tool_name (keyErrStr k)
    | none =>
      runTool tool_name arguments run
        "Failed to get page. Check the page ID or ensure the page is shared with the integration."
        (fun s => s)
  else if tool_name = "create_notion_page" then
    match checkRequired arguments ["title", "parent_page_id"] with
    | some k => execErrStr tool_name (keyErrStr k)
    | none =>
      runTool tool_name arguments run
        "Failed to create page. Check the parent page ID and ensure it\x27s shared with the integration."
        (fun s => "Page created successfully!\n" ++ s)
  else if tool_name = "update_notion_page" then
    match checkRequired arguments ["page_id"] with
    | some k => execErrStr tool_name (keyErrStr k)
    | none =>
      runTool tool_name arguments run
        "Failed to update page. Check the page ID and ensure it\x27s shared with the integration."
        (fun s => "Page updated successfully!\n" ++ s)
  else if tool_name = "update_notion_block" then
    match checkRequired arguments ["block_id", "new_text"] with
    | some k => execErrStr tool_name (keyErrStr k)
    | none =>
      runTool tool_name arguments run
        "Failed to update block. Check the block ID and ensure the page is shared with the integration."
        (fun s => "Block updated successfully!\n" ++ s)
  else if tool_name = "delete_notion_block" then
    match checkRequired arguments ["block_id"] with
    | some k => execErrStr tool_name (keyErrStr k)
    | none =>
      runTool tool_name arguments run
        "Failed to delete block. Check the block ID and ensure the page is shared with the integration."
        (fun _ => "Block deleted successfully!")
  else if tool_name = "delete_notion_page" then
    match checkRequired arguments ["page_id"] with
    | some k => execErrStr tool_name (keyErrStr k)
    | none =>
      runTool tool_name arguments run
        "Failed to delete page. Check the page ID and ensure it\x27s shared with the integration."
        (fun _ => "Page archived successfully! (It can be restored from Notion\x27s trash)")
  else "Unknown tool: " ++ tool_name

lemma checkRequired_eq_none (args : List (String × String)) (ks : List String)
    (h : ∀ k ∈ ks, (getArg args k).isSome) : checkRequired args ks = none := by
  induction ks with
  | nil => rfl
  | cons k ks ih =>
    obtain ⟨v, hv⟩ := Option.isSome_iff_exists.mp (h k (by simp))
    simp only [checkRequired, hv]
    exact ih (fun k2 hk2 => h k2 (by simp [hk2]))

lemma runTool_raised (name : String) (args : List (String × String))
    (run : String → List (String × String) → HandlerOutcome)
    (onFalsy : String) (onValue : String → String) (m : String)
    (h : run name args = .raised m) :
    runTool name args run onFalsy onValue = execErrStr name m := by
  simp [runTool, h]

/-- C7: `execute_tool` is a total function of its inputs (the Python body is
one `try/except`, so no exception escapes): an unregistered tool name yields
the text `"Unknown tool: <name>"`, and whenever the service call behind a
registered tool raises, the result is of the form
`"Error executing <tool>: <cause>"` — exactly `<cause> = <exception text>`
when every required argument is present (otherwise the cause is the
`KeyError` text of the first missing required argument). -/
theorem c7_execute_tool_never_raises :
    (∀ name args run, name ∉ TOOL_NAMES →
      execute_tool name args run = "Unknown tool: " ++ name) ∧
    (∀ name args run m, name ∈ TOOL_NAMES →
      run name args = HandlerOutcome.raised m →
      ∃ c, execute_tool name args run = execErrStr name c) ∧
    (∀ name args run m, name ∈ TOOL_NAMES →
      (∀ k ∈ requiredOf name, (getArg args k).isSome) →
      run name args = HandlerOutcome.raised m →
      execute_tool name args run = execErrStr name m) := by
  refine ⟨?_, ?_, ?_⟩
  · intro name args run h
    simp only [TOOL_NAMES, TOOLS, List.map_cons, List.map_nil] at h
    simp at h
    obtain ⟨h1, h2, h3, h4, h5, h6, h7, h8, h9, h10, h11, h12, h13, h14, h15⟩ := h
    simp [execute_tool, h1, h2, h3, h4, h5, h6, h7, h8, h9, h10, h11, h12, h13,
      h14, h15]
  · intro name args run m hmem hrun
    simp only [TOOL_NAMES, TOOLS, List.map_cons, List.map_nil] at hmem
    simp at hmem
    rcases hmem with h | h | h | h | h | h | h | h | h | h | h | h | h | h | h <;>
        subst h
    · exact ⟨m, by simp [execute_tool, runTool, hrun]⟩
    · exact ⟨m, by simp [execute_tool, runTool, hrun]⟩
    · cases hc : checkRequired args ["message_id"] with
      | some k => exact ⟨keyErrStr k, by simp [execute_tool, hc]⟩
      | none => exact ⟨m, by simp [execute_tool, hc, runTool, hrun]⟩
    · cases hc : checkRequired args ["thread_id"] with
      | some k => exact ⟨keyErrStr k, by simp [execute_tool, hc]⟩
      | none => exact ⟨m, by simp [execute_tool, hc, runTool, hrun]⟩
    · cases hc : checkRequired args ["summary", "start_time", "end_time"] with
      | some k => exact ⟨keyErrStr k, by simp [execute_tool, hc]⟩
      | none => exact ⟨m, by simp [execute_tool, hc, runTool, hrun]⟩
    · cases hc : checkRequired args ["event_id"] with
      | some k => exact ⟨keyErrStr k, by simp [execute_tool, hc]⟩
      | none => exact ⟨m, by simp [execute_tool, hc, runTool, hrun]⟩
    · cases hc : checkRequired args ["event_id", "attendee_emails"] with
      | some k => exact ⟨keyErrStr k, by simp [execute_tool, hc]⟩
      | none => exact ⟨m, by simp [execute_tool, hc, runTool, hrun]⟩
    · cases hc : checkRequired args ["event_id"] with
      | some k => exact ⟨keyErrStr k, by simp [execute_tool, hc]⟩
      | none => exact ⟨m, by simp [execute_tool, hc, runTool, hrun]⟩
    · exact ⟨m, by simp [execute_tool, runTool, hrun]⟩
    · cases hc : checkRequired args ["page_id"] with
      | some k => exact ⟨keyErrStr k, by simp [execute_tool, hc]⟩
      | none => exact ⟨m, by simp [execute_tool, hc, runTool, hrun]⟩
    · cases hc : checkRequired args ["title", "parent_page_id"] with
      | some k => exact ⟨keyErrStr k, by simp [execute_tool, hc]⟩
      | none => exact ⟨m, by simp [execute_tool, hc, runTool, hrun]⟩
    · cases hc : checkRequired args ["page_id"] with
      | some k => exact ⟨keyErrStr k, by simp [execute_tool, hc]⟩
      | none => exact ⟨m, by simp [execute_tool, hc, runTool, hrun]⟩
    · cases hc : checkRequired args ["block_id", "new_text"] with
      | some k => exact ⟨keyErrStr k, by simp [execute_tool, hc]⟩
      | none => exact ⟨m, by simp [execute_tool, hc, runTool, hrun]⟩
    · cases hc : checkRequired args ["block_id"] with
      | some k => exact ⟨keyErrStr k, by simp [execute_tool, hc]⟩
      | none => exact ⟨m, by simp [execute_tool, hc, runTool, hrun]⟩
    · cases hc : checkRequired args ["page_id"] with
      | some k => exact ⟨keyErrStr k, by simp [execute_tool, hc]⟩
      | none => exact ⟨m, by simp [execute_tool, hc, runTool, hrun]⟩
  · intro name args run m hmem hreq hrun
    simp only [TOOL_NAMES, TOOLS, List.map_cons, List.map_nil] at hmem
    simp at hmem
    rcases hmem with h | h | h | h | h | h | h | h | h | h | h | h | h | h | h <;>
      subst h <;>
      rw [execute_tool] <;>
      simp only [reduceIte, String.reduceEq] <;>
      first
        | (simp [runTool, hrun]; done)
        | (simp only [runTool, hrun]
           rw [checkRequired_eq_none args _
            (by simpa [requiredOf, TOOLS] using hreq)])

/-- Witness for C7: the unknown tool name is answered inline, and a raising
handler is rendered as an error result rather than a crash. -/
theorem c7_witness :
    execute_tool "does_not_exist" [] (fun _ _ => HandlerOutcome.falsy) =
      "Unknown tool: " ++ "does_not_exist" ∧
    execute_tool "get_email_content" [("message_id", "m1")]
        (fun _ _ => HandlerOutcome.raised "boom") =
      execErrStr "get_email_content" "boom" :=
  ⟨c7_execute_tool_never_raises.1 "does_not_exist" [] _ (by decide),
   c7_execute_tool_never_raises.2.2 "get_email_content" [("message_id", "m1")]
     _ "boom" (by decide) (by decide) rfl⟩

/-! Part 4: the orchestration loop (`backend/app/api/chat.py`, `chat` endpoint)

The inference endpoint is an oracle script: the initial completion and each
in-loop completion consume one `ModelMessage` from a list; an exhausted
script (`none` result) means the loop was still demanding further model
responses.  The wall-clock time formatted into the system prompt is a string
parameter.  JSON (de)serialization of tool-call arguments is a bijective
transport and is kept at the structured level. -/

/-- Model of `ToolCallInfo` (chat.py lines 37-41): one executed tool call as stored in
the response payload and in caller-supplied history.  `id` defaults to the
empty string.  Equality is field-wise, matching pydantic `__eq__` (used by
`list.index`). -/
structure ToolCallInfo where
  id : String
  name : String
  arguments : List (String × String)
  result : String
deriving DecidableEq, BEq, Repr

/-- Model of `ChatMessage` (chat.py lines 44-47): one prior conversation turn supplied
by the caller. -/
structure ChatMessage where
  role : String
  content : String
  tool_calls : List ToolCallInfo
deriving DecidableEq, Repr

/-- One wire-level tool-call entry of an assistant message
(`{"id": ..., "type": "function", "function": {"name": ..., "arguments":
...}}`). -/
structure WireToolCall where
  id : String
  name : String
  arguments : List (String × String)
deriving DecidableEq, BEq, Repr

/-- One entry of the outbound `messages` array. -/
inductive APIMessage where
  | system (content : String)
  | userMsg (content : String)
  | assistant (content : String)
  | assistantToolCalls (content : Option String) (tool_calls : List WireToolCall)
  | toolResult (tool_call_id : String) (content : String)
deriving DecidableEq, Repr

/-- A model completion: optional text plus requested tool calls (an empty
list models `tool_calls` being `None`). -/
structure ModelMessage where
  content : Option String
  tool_calls : List WireToolCall
deriving DecidableEq, Repr

/-- The final response payload (`ChatResponse`, chat.py lines 55-58;
`context_used` collects the tool names used, `tool_calls` the detailed
log). -/
structure ChatResponse where
  response : String
  context_used : List String
  tool_calls : List ToolCallInfo
deriving DecidableEq, Repr

/-- Text of `SYSTEM_PROMPT_WITH_TOOLS` (chat.py lines 415-513), with the
`{current_time}` placeholder; transcribed without trailing-whitespace
fidelity. -/
def SYSTEM_PROMPT_WITH_TOOLS : String :=
  "You are a helpful digital assistant that acts as the user\x27s \"digital twin\".\n" ++
  "You have access to their connected services (Google Calendar, Gmail, Notion) and can help them manage their digital life.\n" ++
  "\n" ++
  "GOOGLE CALENDAR & GMAIL:\n" ++
  "- View upcoming calendar events and meetings\n" ++
  "- Search for specific events\n" ++
  "- Create new calendar events\n" ++
  "- Edit existing events (change time, title, location, etc.)\n" ++
  "- Share events by inviting people via email\n" ++
  "- Delete events\n" ++
  "- Read and search emails\n" ++
  "\n" ++
  "NOTION (if connected):\n" ++
  "- Search for pages\n" ++
  "- Read page content\n" ++
  "- Create new pages (as child of existing page)\n" ++
  "- Update pages (change title, append content)\n" ++
  "- Update or delete individual blocks\n" ++
  "- Delete (archive) pages\n" ++
  "\n" ++
  "IMPORTANT - Notion content formatting:\n" ++
  "When creating or updating Notion content, use PLAIN TEXT only. Do NOT use markdown formatting (no **, #, -, etc.) as Notion\x27s API does not render markdown - it will appear as literal characters.\n" ++
  "\n" ++
  "IMPORTANT - Notion updates workflow:\n" ++
  "Before making ANY update to a Notion page (updating blocks, deleting blocks, modifying content), you MUST first call get_notion_page to see the current page contents. Never update or delete blocks blindly - always fetch the page first to see what\x27s there, then decide what to modify.\n" ++
  "\n" ++
  "IMPORTANT - Adding vs Creating in Notion:\n" ++
  "- \"Add to a page\" / \"Add content\" / \"Write in my page\" → Use update_notion_page with append_content to add blocks to an EXISTING page\n" ++
  "- \"Create a page\" / \"Make a new page\" → Use create_notion_page to create a NEW page\n" ++
  "Only create a new page when the user EXPLICITLY asks to create one. Adding content to an existing page is NOT creating a page.\n" ++
  "\n" ++
  "IMPORTANT - Always ask for missing information:\n" ++
  "\n" ++
  "CLARIFYING \"MEETINGS\"!!!!\n" ++
  "When a user asks about \"meetings\", clarify what they mean:\n" ++
  "  - Events with multiple attendees/invites (actual meetings with other people)?\n" ++
  "  - Or any calendar event in the time range (including personal reminders, solo blocks, etc.)?\n" ++
  "  Example: \"Show me my meetings this week\" → Ask: \"Would you like to see only events with other attendees, or all calendar events?\"\n" ++
  "\n" ++
  "To CREATE an event, you need: the event name, date, and time. If any are missing, ask.\n" ++
  "  Example: \"Create a meeting called standup\" → Ask: \"When should I schedule this?\"\n" ++
  "\n" ++
  "To EDIT, SHARE, or DELETE an event, you need to know which event. If unclear, search first.\n" ++
  "  Example: \"Delete my appointment\" → Search for it first to find the event ID. Once you have found some candidates, show them to the user for verification, then delete as deleting anything is be a CRITICAL action.\n" ++
  "\n" ++
  "To SHARE an event, you need the person\x27s email address.\n" ++
  "  Example: \"Invite John to my meeting\" → Ask: \"What is John\x27s email address?\"\n" ++
  "\n" ++
  "If the user doesn\x27t specify how long an event should be FIRST ASK. If they still dont comply, assume 1 hour.\n" ++
  "\n" ++
  "SEARCHING FOR EVENTS - CRITICAL: The search is case-sensitive and exact. You MUST try multiple variations before concluding no events exist:\n" ++
  "\n" ++
  "1. First try the exact term the user mentioned\n" ++
  "2. If 0 results, IMMEDIATELY try variations (shorter keywords, single words)\n" ++
  "3. If still 0 results, IMMEDIATELY try an EMPTY query \"\" to list ALL events\n" ++
  "4. Only after trying at least 3 different queries can you say \"no events found\"\n" ++
  "5. Maximum 5 search attempts per request\n" ++
  "\n" ++
  "DO NOT respond with \"no events found\" after only 1 search attempt. KEEP TRYING.\n" ++
  "\n" ++
  "Example: User says \"find my dentist appointment\"\n" ++
  "  - Call: get_calendar_events(query=\"dentist appointment\") → 0 results\n" ++
  "  - Call: get_calendar_events(query=\"dentist\") → 0 results\n" ++
  "  - Call: get_calendar_events(query=\"\") → [shows all events] → scan for dentist-related\n" ++
  "  - Now you can respond with confidence\n" ++
  "\n" ++
  "SEARCHING FOR EMAILS - Same principle applies:\n" ++
  "\n" ++
  "1. First try the exact term the user mentioned\n" ++
  "2. If 0 results, try variations (simpler keywords, different phrasing)\n" ++
  "3. If still 0 results, try an EMPTY query \"\" to get recent inbox emails\n" ++
  "4. Only after trying at least 3 different queries can you say \"no emails found\"\n" ++
  "5. Maximum 5 search attempts per request\n" ++
  "\n" ++
  "Example: User says \"find emails from John about the project\"\n" ++
  "  - Call: get_emails(query=\"from:john project\") → 0 results\n" ++
  "  - Call: get_emails(query=\"from:john\") → 0 results\n" ++
  "  - Call: get_emails(query=\"project\") → [shows emails] → scan for John\n" ++
  "  - Now you can respond with confidence\n" ++
  "\n" ++
  "When responding, format dates and times in a human-readable way (e.g., \"Tomorrow at 3:00 PM\").\n" ++
  "\n" ++
  "COMPREHENSIVE QUERIES - CRITICAL:\n" ++
  "When users ask for \"information about\", \"all information about\", \"everything about\", \"tell me about\", \"what do I have about\", \"how to prepare for\", or similar comprehensive requests:\n" ++
  "1. Search ALL connected services (Calendar, Gmail, AND Notion) for related information\n" ++
  "2. Do NOT stop after searching one source - always check ALL available backends\n" ++
  "3. For any topic X:\n" ++
  "   - Check calendar for events related to X\n" ++
  "   - Search emails for correspondence about X\n" ++
  "   - Search Notion for pages/notes about X\n" ++
  "4. Combine information from ALL sources in your response\n" ++
  "5. Example: \"Tell me about my meeting with Acme Corp\"\n" ++
  "   - get_calendar_events(query=\"Acme\") → get event details\n" ++
  "   - get_emails(query=\"Acme\") → find related emails, then get_email_thread for full context\n" ++
  "   - search_notion(query=\"Acme\") → find any notes or pages\n" ++
  "   - Combine ALL findings in response\n" ++
  "\n" ++
  "Current date and time: {current_time}\n"

/-- Text of `SYSTEM_PROMPT_NO_TOOLS` (chat.py lines 515-521). -/
def SYSTEM_PROMPT_NO_TOOLS : String :=
  "You are a helpful digital assistant.\n" ++
  "The user has not connected any services yet, so you cannot access their calendar or emails.\n" ++
  "If they ask about their schedule or emails, politely let them know they need to connect their Google account first (using the Connections button in the top right).\n" ++
  "Otherwise, just be a helpful general assistant.\n" ++
  "\n" ++
  "Current date and time: {current_time}\n"

/-- Formatting `system_prompt.format(current_time=...)`. -/
def formatPrompt (template time : String) : String :=
  template.replace "{current_time}" time

/-- System prompt selection (chat.py line 755): `SYSTEM_PROMPT_WITH_TOOLS if
has_connections else SYSTEM_PROMPT_NO_TOOLS`. -/
def systemPromptFor (has_connections : Bool) : String :=
  if has_connections then SYSTEM_PROMPT_WITH_TOOLS else SYSTEM_PROMPT_NO_TOOLS

/-- Tool-catalog selection (chat.py line 756): `TOOLS if has_connections
else None` — in capability-less mode no tool schema is sent at all. -/
def tools_to_use (has_connections : Bool) : Option (List ToolSchema) :=
  if has_connections then some TOOLS else none

/-- History reconstruction of one prior turn (chat.py lines 770-799): a user
turn maps to one user message; an assistant turn with tool calls maps to one
assistant message carrying the wire tool-call entries (id falling back to
`call_{enumerate index}` when empty) followed by one tool-result message per
call (id falling back to `call_{list.index(tc)}` when empty — the FIRST
index of an equal element); a plain assistant turn maps to one assistant
message; any other role is skipped. -/
def reconstructMessage (msg : ChatMessage) : List APIMessage :=
  if msg.role = "user" then [.userMsg msg.content]
  else if msg.role = "assistant" then
    if msg.tool_calls ≠ [] then
      .assistantToolCalls (if msg.content = "" then none else some msg.content)
        (msg.tool_calls.enum.map (fun p =>
          ⟨if p.2.id = "" then "call_" ++ toString p.1 else p.2.id,
           p.2.name, p.2.arguments⟩))
      :: msg.tool_calls.map (fun tc =>
          .toolResult
            (if tc.id = "" then "call_" ++ toString (msg.tool_calls.indexOf tc)
             else tc.id)
            tc.result)
    else [.assistant msg.content]
  else []

/-- Outbound message assembly (chat.py lines 759-802): system instruction,
then the reconstruction of the last 20 history entries
(`chat_request.history[-20:]`), then the new user message. -/
def buildMessages (system_prompt : String) (history : List ChatMessage)
    (message : String) : List APIMessage :=
  .system system_prompt ::
    ((history.drop (history.length - 20)).flatMap reconstructMessage ++
      [.userMsg message])

/-- Fallback `assistant_message.content or` the placeholder text: both
`None` and the empty string are falsy. -/
def responseText (content : Option String) : String :=
  match content with
  | none => "I couldn\x27t generate a response."
  | some c => if c = "" then "I couldn\x27t generate a response." else c

/-- One `DISPATCHING_TOOLS` round (the `for tool_call in
assistant_message.tool_calls` body, chat.py lines 824-852): sequentially, in
issue order, record the tool name in `context_used`, execute, append the
detailed log entry and the synthetic tool-result message. -/
def dispatchRound (run : String → List (String × String) → HandlerOutcome)
    (calls : List WireToolCall) (msgs : List APIMessage) (ctx : List String)
    (log : List ToolCallInfo) :
    List APIMessage × List String × List ToolCallInfo :=
  calls.foldl
    (fun acc tc =>
      (acc.1 ++ [.toolResult tc.id (execute_tool tc.name tc.arguments run)],
       acc.2.1 ++ [tc.name],
       acc.2.2 ++ [⟨tc.id, tc.name, tc.arguments,
         execute_tool tc.name tc.arguments run⟩]))
    (msgs, ctx, log)

/-- Model of the `while has_connections and assistant_message.tool_calls` loop
(chat.py lines 821-856) plus the final `ChatResponse` construction.  `resps`
scripts the completions still to come; the second component counts the
`DISPATCHING_TOOLS → AWAITING_MODEL` cycles performed.  An exhausted script
while the loop demands another completion yields `none`. -/
def chatLoop (has_connections : Bool)
    (run : String → List (String × String) → HandlerOutcome)
    (resps : List ModelMessage) (current : ModelMessage)
    (msgs : List APIMessage) (ctx : List String) (log : List ToolCallInfo) :
    Option ChatResponse × Nat :=
  if has_connections ∧ current.tool_calls ≠ [] then
    let st := dispatchRound run current.tool_calls
      (msgs ++ [.assistantToolCalls current.content current.tool_calls]) ctx log
    match resps with
    | [] => (none, 0)
    | r :: rest =>
      let res := chatLoop has_connections run rest r st.1 st.2.1 st.2.2
      (res.1, res.2 + 1)
  else (some ⟨responseText current.content, ctx, log⟩, 0)

/-- Model of the `chat` endpoint body (chat.py lines 736-862) after session
resolution: capability is `user_id is not None`, the system prompt and tool
catalog are selected accordingly, the outbound messages are assembled, the
initial completion is consumed from the script and the tool loop runs. -/
def chat (user_id : Option String) (history : List ChatMessage)
    (message : String) (time : String)
    (run : String → List (String × String) → HandlerOutcome)
    (resps : List ModelMessage) : Option ChatResponse × Nat :=
  let has_connections := user_id.isSome
  let messages := buildMessages (formatPrompt (systemPromptFor has_connections) time)
    history message
  match resps with
  | [] => (none, 0)
  | r :: rest => chatLoop has_connections run rest r messages [] []

/-- Unfolding: a completion without tool calls (or a caller without
capability) ends the loop at once with the accumulated context and log. -/
lemma chatLoop_done (has_connections : Bool)
    (run : String → List (String × String) → HandlerOutcome)
    (resps : List ModelMessage) (cur : ModelMessage) (msgs : List APIMessage)
    (ctx : List String) (log : List ToolCallInfo) (h : cur.tool_calls = []) :
    chatLoop has_connections run resps cur msgs ctx log =
      (some ⟨responseText cur.content, ctx, log⟩, 0) := by
  rw [chatLoop.eq_def]
  simp [h]

/-- Unfolding: with capability and a completion that requests tool calls,
the loop dispatches the round and continues with the next scripted
completion, counting one cycle. -/
lemma chatLoop_step (run : String → List (String × String) → HandlerOutcome)
    (cur r : ModelMessage) (rest : List ModelMessage) (msgs : List APIMessage)
    (ctx : List String) (log : List ToolCallInfo) (hcur : cur.tool_calls ≠ []) :
    chatLoop true run (r :: rest) cur msgs ctx log =
      (let st := dispatchRound run cur.tool_calls
          (msgs ++ [.assistantToolCalls cur.content cur.tool_calls]) ctx log
       let res := chatLoop true run rest r st.1 st.2.1 st.2.2
       (res.1, res.2 + 1)) := by
  rw [chatLoop.eq_def]
  simp [hcur]

/-- Unfolding: with capability, a tool-call completion and no further
scripted completions, the loop is still demanding the model. -/
lemma chatLoop_stuck (run : String → List (String × String) → HandlerOutcome)
    (cur : ModelMessage) (msgs : List APIMessage) (ctx : List String)
    (log : List ToolCallInfo) (hcur : cur.tool_calls ≠ []) :
    chatLoop true run [] cur msgs ctx log = (none, 0) := by
  rw [chatLoop.eq_def]
  simp [hcur]

/-- Without capability the loop body is never entered, whatever the current
completion requests. -/
lemma chatLoop_no_capability
    (run : String → List (String × String) → HandlerOutcome)
    (resps : List ModelMessage) (cur : ModelMessage) (msgs : List APIMessage)
    (ctx : List String) (log : List ToolCallInfo) :
    chatLoop false run resps cur msgs ctx log =
      (some ⟨responseText cur.content, ctx, log⟩, 0) := by
  rw [chatLoop.eq_def]
  simp

/-- C9: with no session user (capability-less mode) the loop is never
entered, even when the first completion requests tool calls: the result is
that completion's text with an empty `context_used` and an empty tool-call
log, zero cycles; the system instruction selected is the no-tools one and no
tool catalog is sent. -/
theorem c9_capability_less_mode (history : List ChatMessage)
    (message time : String)
    (run : String → List (String × String) → HandlerOutcome)
    (r : ModelMessage) (rest : List ModelMessage) :
    chat none history message time run (r :: rest) =
      (some ⟨responseText r.content, [], []⟩, 0) ∧
    systemPromptFor (none : Option String).isSome = SYSTEM_PROMPT_NO_TOOLS ∧
    tools_to_use (none : Option String).isSome = none := by
  refine ⟨?_, rfl, rfl⟩
  simp only [chat, Option.isSome_none]
  exact chatLoop_no_capability run rest r _ [] []

/-- C10: the assembled context uses at most the last 20 caller-supplied
history entries: the kept window has length at most 20, assembling from the
full history equals assembling from the window alone, and any prefix in
front of a 20-entry history is dropped without affecting the output. -/
theorem c10_history_window (sys message : String) :
    (∀ history : List ChatMessage,
      (history.drop (history.length - 20)).length ≤ 20 ∧
      buildMessages sys history message =
        buildMessages sys (history.drop (history.length - 20)) message) ∧
    (∀ pre h : List ChatMessage, h.length = 20 →
      buildMessages sys (pre ++ h) message = buildMessages sys h message) := by
  constructor
  · intro history
    have hk : (history.drop (history.length - 20)).length ≤ 20 := by
      rw [List.length_drop]
      omega
    refine ⟨hk, ?_⟩
    simp only [buildMessages]
    rw [show (history.drop (history.length - 20)).length - 20 = 0 by omega,
      List.drop_zero]
  · intro pre h hlen
    simp only [buildMessages]
    rw [show (pre ++ h).length - 20 = pre.length by simp [hlen],
      List.drop_left, show h.length - 20 = 0 by omega, List.drop_zero]

/-- Witness for C10: a 21-entry history reconstructs identically to its last
20 entries. -/
theorem c10_witness :
    buildMessages "s" ([⟨"user", "x", []⟩] ++ List.replicate 20 ⟨"user", "y", []⟩)
        "m" =
      buildMessages "s" (List.replicate 20 ⟨"user", "y", []⟩) "m" :=
  (c10_history_window "s" "m").2 [⟨"user", "x", []⟩]
    (List.replicate 20 ⟨"user", "y", []⟩) (by simp)

/-- A duplicated tool invocation with an empty call id, for the C4
counterexample. -/
def dupTC : ToolCallInfo := ⟨"", "get_emails", [], "r"⟩

/-- An assistant turn carrying the duplicated invocation twice. -/
def dupMsg : ChatMessage := ⟨"assistant", "", [dupTC, dupTC]⟩

/-- C4 counterexample: reconstructing an assistant turn with two (equal)
tool invocations whose ids are empty produces call entries `call_0`,
`call_1` but tool-result ids `call_0`, `call_0` — the fallback uses
`list.index(tc)`, the FIRST index of an equal element — so the identifier of
the second tool-result message differs from the second call entry, refuting
the claim for arbitrary histories. -/
theorem c4_counterexample :
    reconstructMessage dupMsg =
      [.assistantToolCalls none
        [⟨"call_0", "get_emails", []⟩, ⟨"call_1", "get_emails", []⟩],
       .toolResult "call_0" "r", .toolResult "call_0" "r"] ∧
    ("call_1" : String) ≠ "call_0" := by
  constructor
  · decide
  · decide

lemma enumFrom_map_wire (l : List ToolCallInfo) (k : Nat)
    (hids : ∀ tc ∈ l, tc.id ≠ "") :
    (List.enumFrom k l).map (fun p =>
        (⟨if p.2.id = "" then "call_" ++ toString p.1 else p.2.id,
          p.2.name, p.2.arguments⟩ : WireToolCall)) =
      l.map (fun tc => ⟨tc.id, tc.name, tc.arguments⟩) := by
  induction l generalizing k with
  | nil => rfl
  | cons a t ih =>
    have ha : a.id ≠ "" := hids a (by simp)
    have ht := ih (k + 1) (fun tc htc => hids tc (by simp [htc]))
    simp [List.enumFrom, ha, ht]

/-- C4 (amended): reconstructing an assistant turn with tool invocations
whose call ids are all nonempty (as produced by the loop itself, which
stores the wire ids) yields one assistant message whose i-th call entry
carries the i-th invocation's id, followed by one tool-result message per
invocation in order, the i-th carrying the same id. -/
theorem c4_reconstruction_faithful (msg : ChatMessage)
    (hrole : msg.role = "assistant") (hne : msg.tool_calls ≠ [])
    (hids : ∀ tc ∈ msg.tool_calls, tc.id ≠ "") :
    reconstructMessage msg =
      .assistantToolCalls (if msg.content = "" then none else some msg.content)
          (msg.tool_calls.map (fun tc => ⟨tc.id, tc.name, tc.arguments⟩))
        :: msg.tool_calls.map (fun tc => .toolResult tc.id tc.result) := by
  unfold reconstructMessage
  rw [hrole]
  rw [if_neg (by decide : ¬ ("assistant" : String) = "user")]
  rw [if_pos (rfl : ("assistant" : String) = "assistant")]
  rw [if_pos hne]
  rw [show msg.tool_calls.enum = List.enumFrom 0 msg.tool_calls from rfl,
    enumFrom_map_wire _ 0 hids]
  congr 1
  exact List.map_congr_left (fun tc htc => by simp [hids tc htc])

/-- An assistant turn with two distinct, properly identified invocations. -/
def twoCallMsg : ChatMessage :=
  ⟨"assistant", "",
   [⟨"id1", "get_emails", [], "r1"⟩, ⟨"id2", "get_calendar_events", [], "r2"⟩]⟩

/-- Witness for the amended C4 on a two-invocation turn. -/
theorem c4_witness :
    reconstructMessage twoCallMsg =
      .assistantToolCalls none
          [⟨"id1", "get_emails", []⟩, ⟨"id2", "get_calendar_events", []⟩]
        :: [.toolResult "id1" "r1", .toolResult "id2" "r2"] := by
  have h := c4_reconstruction_faithful twoCallMsg rfl (by decide)
    (by
      intro tc htc
      simp [twoCallMsg] at htc
      rcases htc with h | h <;> subst h <;> decide)
  simpa using h

/-- A service-client oracle whose every call returns a falsy result. -/
def anyRun : String → List (String × String) → HandlerOutcome :=
  fun _ _ => HandlerOutcome.falsy

/-- A completion that requests one tool call. -/
def toolResp : ModelMessage :=
  ⟨none, [⟨"call_1", "get_calendar_events", []⟩]⟩

/-- A completion with plain text and no tool calls. -/
def plainResp : ModelMessage := ⟨some "done", []⟩

/-- C1 counterexample: the `while has_connections and
assistant_message.tool_calls` loop has NO iteration cap.  A script in which
the model requests tool calls on the first 9 completions drives 9
`DISPATCHING_TOOLS → AWAITING_MODEL` cycles — more than the claimed maximum
of 8 — and a script that requests tool calls on every completion never
produces a `DONE` result at all (the loop is still demanding the model when
the 10-completion script runs out). -/
theorem c1_counterexample :
    (chat (some "u") [] "hi" "now" anyRun
        (toolResp :: (List.replicate 8 toolResp ++ [plainResp]))).2 = 9 ∧
    (chat (some "u") [] "hi" "now" anyRun (List.replicate 10 toolResp)).1 =
      none ∧
    ¬ ((9 : Nat) ≤ 8) := by
  refine ⟨?_, ?_, by decide⟩
  · rfl
  · rfl

/-- C1 (amended): the loop is uncapped; it terminates exactly when a
completion without tool calls arrives.  For every `n`, a script of `n`
consecutive tool-call completions followed by one plain completion drives
exactly `n + 1` cycles and returns the plain completion's text; a script of
nothing but tool-call completions never reaches `DONE` (the loop is still
demanding the model when the script of any length runs out, after one cycle
per scripted completion). -/
theorem c1_loop_uncapped :
    (∀ (run : String → List (String × String) → HandlerOutcome)
        (cur plain : ModelMessage) (msgs : List APIMessage)
        (ctx : List String) (log : List ToolCallInfo) (n : Nat),
      cur.tool_calls ≠ [] → plain.tool_calls = [] →
      ((chatLoop true run (List.replicate n cur ++ [plain]) cur msgs ctx
          log).1.map ChatResponse.response =
        some (responseText plain.content)) ∧
      (chatLoop true run (List.replicate n cur ++ [plain]) cur msgs ctx
          log).2 = n + 1) ∧
    (∀ (run : String → List (String × String) → HandlerOutcome)
        (cur : ModelMessage) (msgs : List APIMessage) (ctx : List String)
        (log : List ToolCallInfo) (n : Nat),
      cur.tool_calls ≠ [] →
      chatLoop true run (List.replicate n cur) cur msgs ctx log = (none, n)) := by
  constructor
  · intro run cur plain msgs ctx log n hcur hplain
    induction n generalizing msgs ctx log with
    | zero =>
      rw [List.replicate_zero, List.nil_append]
      rw [chatLoop_step run cur plain [] msgs ctx log hcur]
      simp only []
      rw [chatLoop_done true run [] plain _ _ _ hplain]
      simp
    | succ n ih =>
      rw [List.replicate_succ, List.cons_append]
      rw [chatLoop_step run cur cur (List.replicate n cur ++ [plain]) msgs ctx
        log hcur]
      obtain ⟨ih1, ih2⟩ := ih
        (dispatchRound run cur.tool_calls
          (msgs ++ [.assistantToolCalls cur.content cur.tool_calls]) ctx log).1
        (dispatchRound run cur.tool_calls
          (msgs ++ [.assistantToolCalls cur.content cur.tool_calls]) ctx log).2.1
        (dispatchRound run cur.tool_calls
          (msgs ++ [.assistantToolCalls cur.content cur.tool_calls]) ctx log).2.2
      exact ⟨ih1, by simp [ih2]⟩
  · intro run cur msgs ctx log n hcur
    induction n generalizing msgs ctx log with
    | zero =>
      rw [List.replicate_zero]
      exact chatLoop_stuck run cur msgs ctx log hcur
    | succ n ih =>
      rw [List.replicate_succ]
      rw [chatLoop_step run cur cur (List.replicate n cur) msgs ctx log hcur]
      simp only []
      rw [ih]

/-- Witness for the amended C1: 3 tool-call completions then a plain one
drive exactly 4 cycles ending in the plain text, and 5 tool-call completions
alone leave the loop demanding the model after 5 cycles. -/
theorem c1_witness :
    ((chatLoop true anyRun (List.replicate 3 toolResp ++ [plainResp]) toolResp
        [] [] []).1.map ChatResponse.response =
      some (responseText plainResp.content)) ∧
    (chatLoop true anyRun (List.replicate 3 toolResp ++ [plainResp]) toolResp
      [] [] []).2 = 3 + 1 ∧
    chatLoop true anyRun (List.replicate 5 toolResp) toolResp [] [] [] =
      (none, 5) := by
  obtain ⟨h1, h2⟩ := c1_loop_uncapped.1 anyRun toolResp plainResp [] [] [] 3
    (by decide) rfl
  exact ⟨h1, h2, c1_loop_uncapped.2 anyRun toolResp [] [] [] 5 (by decide)⟩

end DigitalTwin
